import Mathlib

/-!
# Startup-controls panel of alsa-scarlett-gui (`src/window-startup.c`)

A shallow embedding of the panel-construction routines of `window-startup.c`.

* The GTK grid is the list of its children in attach order, each child with
  the cell rectangle given to `gtk_grid_attach`.
* `int *grid_y`, the `stderr` stream, the `g_signal_connect` registrations and
  the sequence of `scarlett2_*` hwdep calls are fields of one explicit state.
* The external functions of the hwdep layer (`scarlett2_open_card`,
  `scarlett2_get_protocol_version`, the `SCARLETT2_HWDEP_VERSION_*` macros and
  `snd_strerror`) are parameters: every theorem holds for all of them.
* Styling calls (margins, alignment, CSS classes, size requests) have no
  counterpart in the model.
* `int` values are unbounded integers. `grid_y` starts at 0 and reaches at most
  11 in `create_startup_controls`, so no `int` arithmetic of the file wraps.
-/

namespace WindowStartup

/-! ## Data model -/

/-- The constant `REQUIRED_HWDEP_VERSION_MAJOR` (line 11). -/
def REQUIRED_HWDEP_VERSION_MAJOR : Int := 1

/-- A control element (`struct alsa_elem`): its name, and a numeric id standing
for the rest of the element. The panel code only reads the name (through
`get_elem_by_name`) and hands the element to `make_boolean_alsa_elem`. -/
structure alsa_elem where
  name : String
  numid : Nat
deriving DecidableEq

/-- A card (`struct alsa_card`): `device` is `none` for a null `card->device`
(a simulated card), `elems` is the control set `card->elems`. -/
structure alsa_card where
  device : Option String
  elems : List alsa_elem
deriving DecidableEq

/-- A callback function pointer. `create_reset_config_window` is the only one
this file names; `other` stands for every other function. -/
inductive GCallback where
  | create_reset_config_window
  | other (addr : Nat)
deriving DecidableEq

/-- The widgets the panel creates. -/
inductive GtkWidget where
  /-- The result of `gtk_label_new` followed by `gtk_label_set_markup`. -/
  | label (markup : String)
  /-- The result of `gtk_text_view_new` with the buffer text set. -/
  | text_view (text : String)
  /-- The result of `gtk_separator_new(GTK_ORIENTATION_HORIZONTAL)`. -/
  | separator
  /-- The result of `make_boolean_alsa_elem(elem, disabled_text, enabled_text)`. -/
  | boolean_elem (elem : alsa_elem) (disabled_text enabled_text : String)
  /-- The result of `gtk_button_new_with_label`. -/
  | button (text : String)
deriving DecidableEq

/-- One `gtk_grid_attach(grid, widget, column, row, width, height)`. -/
structure GridChild where
  widget : GtkWidget
  column : Int
  row : Int
  width : Int
  height : Int
deriving DecidableEq

/-- One `g_signal_connect(instance, detailed_signal, c_handler, data)`. -/
structure SignalConnection where
  widget : GtkWidget
  detailed_signal : String
  c_handler : GCallback
  data : alsa_card
deriving DecidableEq

/-- A call into the hwdep transport. The handle is the value that
`scarlett2_open_card` stored through its `snd_hwdep_t **` argument. -/
inductive HwdepCall where
  | open_card (device : String)
  | get_protocol_version (hwdep : Nat)
  | close (hwdep : Nat)
deriving DecidableEq

/-- The external functions `window-startup.c` calls but does not define.
`scarlett2_open_card device` gives the returned `int` and the handle stored in
`*hwdep`; the three decoders are the macros of `scarlett2-ioctls.h`, whose bit
layout the panel code does not depend on. -/
structure Scarlett2 where
  scarlett2_open_card : String → Int × Nat
  scarlett2_get_protocol_version : Nat → Int
  SCARLETT2_HWDEP_VERSION_MAJOR : Int → Int
  SCARLETT2_HWDEP_VERSION_MINOR : Int → Int
  SCARLETT2_HWDEP_VERSION_SUBMINOR : Int → Int
  snd_strerror : Int → String

/-- Everything the panel routines read or write besides their arguments. -/
structure State where
  /-- Children of the `GtkGrid`, in attach order. -/
  grid : List GridChild
  /-- The value of `*grid_y`. -/
  grid_y : Int
  /-- The `g_signal_connect` registrations, in order. -/
  signals : List SignalConnection
  /-- The strings written by `fprintf(stderr, ...)`, one entry per call. -/
  stderr : List String
  /-- The hwdep calls made, in order. -/
  calls : List HwdepCall
deriving DecidableEq

/-! ## External collaborators -/

/-- Modelled from the spec: `get_elem_by_name` is defined outside
`window-startup.c`. The spec gives `find_by_name(registry, name)` as an exact,
case-sensitive string lookup that returns an absent result when no element has
that name. -/
def get_elem_by_name (elems : List alsa_elem) (name : String) : Option alsa_elem :=
  elems.find? (fun e => e.name == name)

/-- The widget `make_boolean_alsa_elem` returns (defined in `widget-boolean.c`). -/
def make_boolean_alsa_elem (elem : alsa_elem) (disabled_text enabled_text : String) :
    GtkWidget :=
  .boolean_elem elem disabled_text enabled_text

/-- The call `gtk_grid_attach`: the widget becomes a child of the grid. -/
def gtk_grid_attach (s : State) (w : GtkWidget) (column row width height : Int) : State :=
  { s with grid := s.grid ++ [⟨w, column, row, width, height⟩] }

/-- The call `g_signal_connect`. -/
def g_signal_connect (s : State) (w : GtkWidget) (detailed_signal : String)
    (c_handler : GCallback) (data : alsa_card) : State :=
  { s with signals := s.signals ++ [⟨w, detailed_signal, c_handler, data⟩] }

/-- One `fprintf(stderr, ...)` with the formatted text `msg`. -/
def fprintf_stderr (s : State) (msg : String) : State :=
  { s with stderr := s.stderr ++ [msg] }

/-- Records one hwdep call. -/
def hwdep_call (s : State) (c : HwdepCall) : State :=
  { s with calls := s.calls ++ [c] }

/-- The conversion `%d` of `printf`. -/
def fmt_d (i : Int) : String := toString i

/-! ## The routines of `window-startup.c` -/

/-- The function `small_label` (lines 13-23): a label with the markup `<b>text</b>`. -/
def small_label (text : String) : GtkWidget :=
  .label ("<b>" ++ text ++ "</b>")

/-- The function `big_label` (lines 25-36): an insensitive, word-wrapped text view. -/
def big_label (text : String) : GtkWidget :=
  .text_view text

/-- The function `add_sep` (lines 38-48). The increment `(*grid_y)++` does not
wrap: `grid_y` stays below 12 in every run of `create_startup_controls`. -/
def add_sep (s : State) : State :=
  if s.grid_y = 0 then
    s
  else
    let sep := GtkWidget.separator
    { gtk_grid_attach s sep 0 s.grid_y 3 1 with grid_y := s.grid_y + 1 }

/-- The text of the Standalone section (lines 72-77). -/
def standalone_description : String :=
  "When Standalone mode is enabled, the interface will continue to " ++
  "route audio as per the previous routing and mixer settings " ++
  "after it has been disconnected from a computer. By configuring " ++
  "the routing between the hardware and mixer inputs and outputs " ++
  "appropriately, the interface can act as a standalone preamp or " ++
  "mixer."

/-- The text of the Phantom Power Persistence section (lines 108-112). -/
def phantom_description : String :=
  "When Phantom Power Persistence is enabled, the interface will " ++
  "restore the previous Phantom Power/48V setting when the " ++
  "interface is turned on. For the safety of microphones which can " ++
  "be damaged by phantom power, the interface defaults to having " ++
  "phantom power disabled when it is turned on."

/-- The text of the MSD Mode section (lines 143-149). -/
def msd_description : String :=
  "When MSD Mode is enabled (as it is from the factory), the " ++
  "interface has reduced functionality. You’ll want to have this " ++
  "disabled. On the other hand, when MSD Mode is enabled, the " ++
  "interface presents itself as a Mass Storage Device (like a USB " ++
  "stick), containing a link to the Focusrite web site encouraging " ++
  "you to register your product and download the proprietary " ++
  "drivers which can’t be used on Linux."

/-- The text of the Reset Configuration section (lines 226-227). -/
def reset_description : String :=
  "Resetting the configuration will reset the interface to its " ++
  "factory default settings. The firmware will be left unchanged."

/-- The text of the message of `add_no_startup_controls_msg` (lines 234-235). -/
def no_startup_controls_text : String :=
  "It appears that there are no startup controls. You probably " ++
  "need to upgrade your kernel to see something here."

/-- The function `add_standalone_control` (lines 50-82). -/
def add_standalone_control (elems : List alsa_elem) (s : State) : State :=
  match get_elem_by_name elems "Standalone Switch" with
  | none => s
  | some standalone =>
    let s := add_sep s
    let s := gtk_grid_attach s (small_label "Standalone") 0 s.grid_y 1 1
    let s := gtk_grid_attach s
      (make_boolean_alsa_elem standalone "Disabled" "Enabled") 0 (s.grid_y + 1) 1 1
    let s := gtk_grid_attach s (big_label standalone_description) 1 s.grid_y 1 2
    { s with grid_y := s.grid_y + 2 }

/-- The function `add_phantom_persistence_control` (lines 84-117). -/
def add_phantom_persistence_control (elems : List alsa_elem) (s : State) : State :=
  match get_elem_by_name elems "Phantom Power Persistence Capture Switch" with
  | none => s
  | some phantom =>
    let s := add_sep s
    let s := gtk_grid_attach s (small_label "Phantom Power Persistence") 0 s.grid_y 1 1
    let s := gtk_grid_attach s
      (make_boolean_alsa_elem phantom "Disabled" "Enabled") 0 (s.grid_y + 1) 1 1
    let s := gtk_grid_attach s (big_label phantom_description) 1 s.grid_y 1 2
    { s with grid_y := s.grid_y + 2 }

/-- The function `add_msd_control` (lines 119-154). -/
def add_msd_control (elems : List alsa_elem) (s : State) : State :=
  match get_elem_by_name elems "MSD Mode Switch" with
  | none => s
  | some msd =>
    let s := add_sep s
    let s := gtk_grid_attach s (small_label "MSD (Mass Storage Device) Mode") 0 s.grid_y 1 1
    let s := gtk_grid_attach s
      (make_boolean_alsa_elem msd "Disabled" "Enabled") 0 (s.grid_y + 1) 1 1
    let s := gtk_grid_attach s (big_label msd_description) 1 s.grid_y 1 2
    { s with grid_y := s.grid_y + 2 }

/-- The function `add_reset_action` (lines 156-180). -/
def add_reset_action (card : alsa_card) (s : State) (label button_label description : String)
    (callback : GCallback) : State :=
  let s := add_sep s
  let s := gtk_grid_attach s (small_label label) 0 s.grid_y 1 1
  let w := GtkWidget.button button_label
  let s := gtk_grid_attach s w 0 (s.grid_y + 1) 1 1
  let s := g_signal_connect s w "clicked" callback card
  let s := gtk_grid_attach s (big_label description) 1 s.grid_y 1 2
  { s with grid_y := s.grid_y + 2 }

/-- The function `add_reset_actions` (lines 182-230). -/
def add_reset_actions (env : Scarlett2) (card : alsa_card) (s : State) : State :=
  match card.device with
  | none => s
  | some device =>
    let err := (env.scarlett2_open_card device).1
    let hwdep := (env.scarlett2_open_card device).2
    let s := hwdep_call s (.open_card device)
    if err < 0 then
      fprintf_stderr s
        ("unable to open hwdep interface: " ++ env.snd_strerror err ++ "\n")
    else
      let ver := env.scarlett2_get_protocol_version hwdep
      let s := hwdep_call s (.get_protocol_version hwdep)
      if ver < 0 then
        fprintf_stderr s
          ("unable to get protocol version: " ++ env.snd_strerror ver ++ "\n")
      else if env.SCARLETT2_HWDEP_VERSION_MAJOR ver ≠ REQUIRED_HWDEP_VERSION_MAJOR then
        fprintf_stderr s
          ("Unsupported hwdep protocol version " ++
            fmt_d (env.SCARLETT2_HWDEP_VERSION_MAJOR ver) ++ "." ++
            fmt_d (env.SCARLETT2_HWDEP_VERSION_MINOR ver) ++ "." ++
            fmt_d (env.SCARLETT2_HWDEP_VERSION_SUBMINOR ver) ++
            " on card " ++ device ++ "\n")
      else
        let s := hwdep_call s (.close hwdep)
        add_reset_action card s "Reset Configuration" "Reset" reset_description
          .create_reset_config_window

/-- The function `add_no_startup_controls_msg` (lines 232-238). -/
def add_no_startup_controls_msg (s : State) : State :=
  gtk_grid_attach s (big_label no_startup_controls_text) 0 0 1 1

/-- The state `create_startup_controls` starts from: a new empty grid,
`grid_y = 0` (lines 246-248), nothing connected, written or called yet. -/
def initial_state : State :=
  { grid := [], grid_y := 0, signals := [], stderr := [], calls := [] }

/-- The four feature calls of `create_startup_controls` (lines 256-259). -/
def add_all_controls (env : Scarlett2) (card : alsa_card) (s : State) : State :=
  let elems := card.elems
  let s := add_standalone_control elems s
  let s := add_phantom_persistence_control elems s
  let s := add_msd_control elems s
  add_reset_actions env card s

/-- The function `create_startup_controls` (lines 240-265). The result is the state when the
function returns; the returned frame `top` has the grid as its only child. -/
def create_startup_controls (env : Scarlett2) (card : alsa_card) : State :=
  let s := add_all_controls env card initial_state
  if s.grid_y = 0 then
    add_no_startup_controls_msg s
  else
    s

/-! ## Vocabulary of the statements -/

/-- The children attached between two states of the same grid. -/
def attached_since (before after : State) : List GridChild :=
  after.grid.drop before.grid.length

/-- The hwdep calls made between two states. -/
def calls_since (before after : State) : List HwdepCall :=
  after.calls.drop before.calls.length

/-- The three children of the "Reset Configuration" section when its first row
is `y`: the label, the "Reset" button under it, and the description beside. -/
def reset_section (y : Int) : List GridChild :=
  [ ⟨small_label "Reset Configuration", 0, y, 1, 1⟩,
    ⟨.button "Reset", 0, y + 1, 1, 1⟩,
    ⟨big_label reset_description, 1, y, 1, 2⟩ ]

/-- The environment `env` with the version read replaced by the constant `ver`. -/
def with_version (env : Scarlett2) (ver : Int) : Scarlett2 :=
  { env with scarlett2_get_protocol_version := fun _ => ver }

/-- An example packing of a version triple, with 8-bit fields and the major
field in bits 16 to 23. The bit layout is an assumption of the examples only. -/
def example_version (major minor subminor : Int) : Int :=
  major * 65536 + minor * 256 + subminor

/-- An example transport for concrete runs: `scarlett2_open_card` returns
`open_result` and the handle `hwdep`, the version read returns `ver`, and the
decoders invert `example_version`. -/
def example_transport (open_result : Int) (hwdep : Nat) (ver : Int) : Scarlett2 :=
  { scarlett2_open_card := fun _ => (open_result, hwdep)
    scarlett2_get_protocol_version := fun _ => ver
    SCARLETT2_HWDEP_VERSION_MAJOR := fun v => (v / 65536) % 256
    SCARLETT2_HWDEP_VERSION_MINOR := fun v => (v / 256) % 256
    SCARLETT2_HWDEP_VERSION_SUBMINOR := fun v => v % 256
    snd_strerror := fun e => "error " ++ fmt_d e }

/-- An example card with a device path and no control elements. -/
def example_card : alsa_card :=
  { device := some "hw:0", elems := [] }

/-- An example simulated card: no device path, one "Standalone Switch". -/
def example_simulated_card : alsa_card :=
  { device := none, elems := [⟨"Standalone Switch", 1⟩] }

/-- The gate of `add_reset_actions` as a function of the card and the
transport: a device path, a non-negative open result, a non-negative version
and the required major field (lines 188, 194, 200, 205). -/
def reset_gate_passes (env : Scarlett2) (card : alsa_card) : Bool :=
  match card.device with
  | none => false
  | some device =>
    decide (0 ≤ (env.scarlett2_open_card device).1) &&
    decide (0 ≤ env.scarlett2_get_protocol_version (env.scarlett2_open_card device).2) &&
    decide (env.SCARLETT2_HWDEP_VERSION_MAJOR
      (env.scarlett2_get_protocol_version (env.scarlett2_open_card device).2) =
        REQUIRED_HWDEP_VERSION_MAJOR)

/-- The number of features offered: one for each of the three control elements
that `get_elem_by_name` finds, one more when the reset gate passes. -/
def offered_count (env : Scarlett2) (card : alsa_card) : Nat :=
  (get_elem_by_name card.elems "Standalone Switch").isSome.toNat +
  (get_elem_by_name card.elems "Phantom Power Persistence Capture Switch").isSome.toNat +
  (get_elem_by_name card.elems "MSD Mode Switch").isSome.toNat +
  (reset_gate_passes env card).toNat

/-- The kind of a widget: a section label, a description, a separator, or the
control of a section (the toggle of a control element, or the reset button). -/
inductive WidgetKind where
  | label
  | text_view
  | separator
  | control
deriving DecidableEq

/-- The kind of each widget. -/
def GtkWidget.kind : GtkWidget → WidgetKind
  | .label _ => .label
  | .text_view _ => .text_view
  | .separator => .separator
  | .boolean_elem _ _ _ => .control
  | .button _ => .control

/-- The kind of a child and the cell rectangle it was attached with. -/
structure Placement where
  kind : WidgetKind
  column : Int
  row : Int
  width : Int
  height : Int
deriving DecidableEq

/-- The placement of a grid child. -/
def GridChild.placement (c : GridChild) : Placement :=
  ⟨c.widget.kind, c.column, c.row, c.width, c.height⟩

/-- The placements of the children of the grid, in attach order. -/
def layout (s : State) : List Placement :=
  s.grid.map GridChild.placement

/-- Two placements share a grid cell: their column ranges and their row ranges
both intersect. -/
def Placement.overlaps (a b : Placement) : Bool :=
  decide (a.column < b.column + b.width) && decide (b.column < a.column + a.width) &&
  decide (a.row < b.row + b.height) && decide (b.row < a.row + a.height)

/-- The placement covers a cell of row `r`. -/
def Placement.on_row (a : Placement) (r : Int) : Bool :=
  decide (a.row ≤ r) && decide (r < a.row + a.height)

/-- The call is a `scarlett2_open_card`. -/
def HwdepCall.is_open : HwdepCall → Bool
  | .open_card _ => true
  | _ => false

theorem add_reset_actions_simulated (env : Scarlett2) (card : alsa_card) (s : State)
    (hdev : card.device = none) : add_reset_actions env card s = s := by
  simp [add_reset_actions, hdev]

theorem add_reset_actions_open_failed (env : Scarlett2) (card : alsa_card) (s : State)
    (device : String) (hdev : card.device = some device)
    (herr : (env.scarlett2_open_card device).1 < 0) :
    add_reset_actions env card s =
      fprintf_stderr (hwdep_call s (.open_card device))
        ("unable to open hwdep interface: " ++
          env.snd_strerror (env.scarlett2_open_card device).1 ++ "\n") := by
  simp [add_reset_actions, hdev, herr]

theorem add_reset_actions_version_failed (env : Scarlett2) (card : alsa_card) (s : State)
    (device : String) (hdev : card.device = some device)
    (herr : 0 ≤ (env.scarlett2_open_card device).1)
    (hver : env.scarlett2_get_protocol_version (env.scarlett2_open_card device).2 < 0) :
    add_reset_actions env card s =
      fprintf_stderr
        (hwdep_call (hwdep_call s (.open_card device))
          (.get_protocol_version (env.scarlett2_open_card device).2))
        ("unable to get protocol version: " ++
          env.snd_strerror
            (env.scarlett2_get_protocol_version (env.scarlett2_open_card device).2) ++
          "\n") := by
  simp [add_reset_actions, hdev, not_lt.mpr herr, hver]

theorem add_reset_actions_version_mismatch (env : Scarlett2) (card : alsa_card) (s : State)
    (device : String) (hdev : card.device = some device)
    (herr : 0 ≤ (env.scarlett2_open_card device).1)
    (hver : 0 ≤ env.scarlett2_get_protocol_version (env.scarlett2_open_card device).2)
    (hmajor : env.SCARLETT2_HWDEP_VERSION_MAJOR
      (env.scarlett2_get_protocol_version (env.scarlett2_open_card device).2) ≠
        REQUIRED_HWDEP_VERSION_MAJOR) :
    add_reset_actions env card s =
      fprintf_stderr
        (hwdep_call (hwdep_call s (.open_card device))
          (.get_protocol_version (env.scarlett2_open_card device).2))
        ("Unsupported hwdep protocol version " ++
          fmt_d (env.SCARLETT2_HWDEP_VERSION_MAJOR
            (env.scarlett2_get_protocol_version (env.scarlett2_open_card device).2)) ++ "." ++
          fmt_d (env.SCARLETT2_HWDEP_VERSION_MINOR
            (env.scarlett2_get_protocol_version (env.scarlett2_open_card device).2)) ++ "." ++
          fmt_d (env.SCARLETT2_HWDEP_VERSION_SUBMINOR
            (env.scarlett2_get_protocol_version (env.scarlett2_open_card device).2)) ++
          " on card " ++ device ++ "\n") := by
  simp only [add_reset_actions, hdev, not_lt.mpr herr, not_lt.mpr hver, hmajor, if_false,
    ne_eq, not_false_eq_true, if_true]

theorem add_reset_actions_supported (env : Scarlett2) (card : alsa_card) (s : State)
    (device : String) (hdev : card.device = some device)
    (herr : 0 ≤ (env.scarlett2_open_card device).1)
    (hver : 0 ≤ env.scarlett2_get_protocol_version (env.scarlett2_open_card device).2)
    (hmajor : env.SCARLETT2_HWDEP_VERSION_MAJOR
      (env.scarlett2_get_protocol_version (env.scarlett2_open_card device).2) =
        REQUIRED_HWDEP_VERSION_MAJOR) :
    add_reset_actions env card s =
      add_reset_action card
        (hwdep_call
          (hwdep_call (hwdep_call s (.open_card device))
            (.get_protocol_version (env.scarlett2_open_card device).2))
          (.close (env.scarlett2_open_card device).2))
        "Reset Configuration" "Reset" reset_description .create_reset_config_window := by
  simp [add_reset_actions, hdev, not_lt.mpr herr, not_lt.mpr hver, hmajor]

/-- What `add_reset_action` does to the grid, the row counter and the signal
table, whatever the state it starts from. -/
theorem add_reset_action_effect (card : alsa_card) (s : State)
    (label button_label description : String) (callback : GCallback) :
    (add_reset_action card s label button_label description callback).grid =
        (add_sep s).grid ++
          [ ⟨small_label label, 0, (add_sep s).grid_y, 1, 1⟩,
            ⟨.button button_label, 0, (add_sep s).grid_y + 1, 1, 1⟩,
            ⟨big_label description, 1, (add_sep s).grid_y, 1, 2⟩ ] ∧
      (add_reset_action card s label button_label description callback).grid_y =
        (add_sep s).grid_y + 2 ∧
      (add_reset_action card s label button_label description callback).signals =
        s.signals ++ [⟨.button button_label, "clicked", callback, card⟩] ∧
      (add_reset_action card s label button_label description callback).stderr = s.stderr ∧
      (add_reset_action card s label button_label description callback).calls = s.calls := by
  unfold add_reset_action add_sep
  split <;> simp [gtk_grid_attach, g_signal_connect]


/-! ## Frame lemmas -/

theorem add_sep_frame (s : State) :
    (add_sep s).signals = s.signals ∧ (add_sep s).stderr = s.stderr ∧
      (add_sep s).calls = s.calls := by
  unfold add_sep
  split <;> simp [gtk_grid_attach]

theorem add_sep_grid (s : State) :
    (add_sep s).grid = (if s.grid_y = 0 then s.grid else s.grid ++ [⟨.separator, 0, s.grid_y, 3, 1⟩]) ∧
      (add_sep s).grid_y = (if s.grid_y = 0 then 0 else s.grid_y + 1) := by
  unfold add_sep
  split <;> simp_all [gtk_grid_attach]

theorem add_sep_grid_length (s : State) : s.grid.length ≤ (add_sep s).grid.length := by
  rw [(add_sep_grid s).1]
  split <;> simp

theorem add_standalone_control_frame (elems : List alsa_elem) (s : State) :
    (add_standalone_control elems s).signals = s.signals ∧
      (add_standalone_control elems s).stderr = s.stderr ∧
      (add_standalone_control elems s).calls = s.calls := by
  unfold add_standalone_control
  split <;> simp [gtk_grid_attach, add_sep_frame]

theorem add_phantom_persistence_control_frame (elems : List alsa_elem) (s : State) :
    (add_phantom_persistence_control elems s).signals = s.signals ∧
      (add_phantom_persistence_control elems s).stderr = s.stderr ∧
      (add_phantom_persistence_control elems s).calls = s.calls := by
  unfold add_phantom_persistence_control
  split <;> simp [gtk_grid_attach, add_sep_frame]

theorem add_msd_control_frame (elems : List alsa_elem) (s : State) :
    (add_msd_control elems s).signals = s.signals ∧
      (add_msd_control elems s).stderr = s.stderr ∧
      (add_msd_control elems s).calls = s.calls := by
  unfold add_msd_control
  split <;> simp [gtk_grid_attach, add_sep_frame]

/-- The grid after `add_reset_action` is never the grid before it. -/
theorem add_reset_action_grid_ne (card : alsa_card) (s : State)
    (label button_label description : String) (callback : GCallback) :
    (add_reset_action card s label button_label description callback).grid ≠ s.grid := by
  intro h
  have hlen := congrArg List.length h
  rw [(add_reset_action_effect card s label button_label description callback).1] at hlen
  have := add_sep_grid_length s
  simp at hlen
  omega

/-! ## The reset gate (C1 to C6) -/

/-- C1: `add_reset_actions` attaches the "Reset Configuration" action (changes
the grid or the signal table at all) only if the card has a device path,
`scarlett2_open_card` returned a non-negative result, and the major field of
the version read (itself non-negative) equals `REQUIRED_HWDEP_VERSION_MAJOR`. -/
theorem reset_action_only_if_gate_passes (env : Scarlett2) (card : alsa_card) (s : State)
    (h : (add_reset_actions env card s).grid ≠ s.grid ∨
      (add_reset_actions env card s).signals ≠ s.signals) :
    ∃ device, card.device = some device ∧
      0 ≤ (env.scarlett2_open_card device).1 ∧
      0 ≤ env.scarlett2_get_protocol_version (env.scarlett2_open_card device).2 ∧
      env.SCARLETT2_HWDEP_VERSION_MAJOR
        (env.scarlett2_get_protocol_version (env.scarlett2_open_card device).2) =
          REQUIRED_HWDEP_VERSION_MAJOR := by
  cases hdev : card.device with
  | none =>
    rw [add_reset_actions_simulated env card s hdev] at h
    simp at h
  | some device =>
    refine ⟨device, rfl, ?_⟩
    by_cases herr : (env.scarlett2_open_card device).1 < 0
    · rw [add_reset_actions_open_failed env card s device hdev herr] at h
      simp [fprintf_stderr, hwdep_call] at h
    · have herr0 := not_lt.mp herr
      by_cases hver :
          env.scarlett2_get_protocol_version (env.scarlett2_open_card device).2 < 0
      · rw [add_reset_actions_version_failed env card s device hdev herr0 hver] at h
        simp [fprintf_stderr, hwdep_call] at h
      · have hver0 := not_lt.mp hver
        by_cases hmajor : env.SCARLETT2_HWDEP_VERSION_MAJOR
            (env.scarlett2_get_protocol_version (env.scarlett2_open_card device).2) =
              REQUIRED_HWDEP_VERSION_MAJOR
        · exact ⟨herr0, hver0, hmajor⟩
        · rw [add_reset_actions_version_mismatch env card s device hdev herr0 hver0 hmajor] at h
          simp [fprintf_stderr, hwdep_call] at h

/-- Witness of C1: on a card with device "hw:0", an open that returns 0 and the
version (1,0,0), the action is attached and the three conditions hold. -/
theorem reset_action_only_if_gate_passes_witness :
    (add_reset_actions (example_transport 0 7 (example_version 1 0 0)) example_card
        initial_state).grid ≠ initial_state.grid ∧
      ∃ device, example_card.device = some device ∧
        0 ≤ ((example_transport 0 7 (example_version 1 0 0)).scarlett2_open_card device).1 ∧
        0 ≤ (example_transport 0 7 (example_version 1 0 0)).scarlett2_get_protocol_version
          ((example_transport 0 7 (example_version 1 0 0)).scarlett2_open_card device).2 ∧
        (example_transport 0 7 (example_version 1 0 0)).SCARLETT2_HWDEP_VERSION_MAJOR
          ((example_transport 0 7 (example_version 1 0 0)).scarlett2_get_protocol_version
            ((example_transport 0 7 (example_version 1 0 0)).scarlett2_open_card device).2) =
            REQUIRED_HWDEP_VERSION_MAJOR :=
  ⟨by decide,
    reset_action_only_if_gate_passes (example_transport 0 7 (example_version 1 0 0))
      example_card initial_state (Or.inl (by decide))⟩

/-- C2 (evaluation at the failing inputs): with an open that succeeds with
handle 7, a version read that fails with -5 leaves the calls at open, version
read, and so does a version read of (2,0,0): `scarlett2_close` is not called
on either path. On the path that passes the gate the handle is closed. -/
theorem handle_not_closed_on_early_return :
    (add_reset_actions (example_transport 0 7 (-5)) example_card initial_state).calls =
        [.open_card "hw:0", .get_protocol_version 7] ∧
      (add_reset_actions (example_transport 0 7 (example_version 2 0 0)) example_card
        initial_state).calls = [.open_card "hw:0", .get_protocol_version 7] ∧
      (add_reset_actions (example_transport 0 7 (example_version 1 0 0)) example_card
        initial_state).calls = [.open_card "hw:0", .get_protocol_version 7, .close 7] := by
  decide


/-- The calls, diagnostics and signals of a whole run are those of
`add_reset_actions`: the three control features add none. -/
theorem add_all_controls_frame (card : alsa_card) :
    (add_msd_control card.elems
        (add_phantom_persistence_control card.elems
          (add_standalone_control card.elems initial_state))).calls = [] ∧
      (add_msd_control card.elems
        (add_phantom_persistence_control card.elems
          (add_standalone_control card.elems initial_state))).stderr = [] ∧
      (add_msd_control card.elems
        (add_phantom_persistence_control card.elems
          (add_standalone_control card.elems initial_state))).signals = [] := by
  simp [add_msd_control_frame, add_phantom_persistence_control_frame,
    add_standalone_control_frame, initial_state]

theorem create_startup_controls_frame (env : Scarlett2) (card : alsa_card) :
    (create_startup_controls env card).calls =
        (add_all_controls env card initial_state).calls ∧
      (create_startup_controls env card).stderr =
        (add_all_controls env card initial_state).stderr ∧
      (create_startup_controls env card).signals =
        (add_all_controls env card initial_state).signals := by
  unfold create_startup_controls
  simp only []
  split <;> simp [add_no_startup_controls_msg, gtk_grid_attach]

/-- C3: for a card without a device path `add_reset_actions` returns the state
it was given (grid, `grid_y`, diagnostics and calls unchanged), and a whole run
of `create_startup_controls` makes no hwdep call and writes no diagnostic. -/
theorem simulated_card_no_transport_call (env : Scarlett2) (card : alsa_card)
    (hdev : card.device = none) :
    (∀ s : State, add_reset_actions env card s = s) ∧
      (create_startup_controls env card).calls = [] ∧
      (create_startup_controls env card).stderr = [] := by
  refine ⟨fun s => add_reset_actions_simulated env card s hdev, ?_, ?_⟩
  · rw [(create_startup_controls_frame env card).1]
    unfold add_all_controls
    simp only []
    rw [add_reset_actions_simulated env card _ hdev]
    exact (add_all_controls_frame card).1
  · rw [(create_startup_controls_frame env card).2.1]
    unfold add_all_controls
    simp only []
    rw [add_reset_actions_simulated env card _ hdev]
    exact (add_all_controls_frame card).2.1

/-- Witness of C3: a simulated card with a "Standalone Switch", on a transport
whose open would succeed. -/
theorem simulated_card_no_transport_call_witness :
    example_simulated_card.device = none ∧
      ((∀ s : State,
          add_reset_actions (example_transport 0 7 (example_version 1 0 0))
            example_simulated_card s = s) ∧
        (create_startup_controls (example_transport 0 7 (example_version 1 0 0))
          example_simulated_card).calls = [] ∧
        (create_startup_controls (example_transport 0 7 (example_version 1 0 0))
          example_simulated_card).stderr = []) :=
  ⟨rfl, simulated_card_no_transport_call (example_transport 0 7 (example_version 1 0 0))
    example_simulated_card rfl⟩

/-- On the three paths that do not pass the gate the grid, `grid_y` and the
signal table are untouched. -/
theorem reset_unavailable_frame (env : Scarlett2) (card : alsa_card) (s : State)
    (device : String) (hdev : card.device = some device)
    (h : (env.scarlett2_open_card device).1 < 0 ∨
      env.scarlett2_get_protocol_version (env.scarlett2_open_card device).2 < 0 ∨
      env.SCARLETT2_HWDEP_VERSION_MAJOR
        (env.scarlett2_get_protocol_version (env.scarlett2_open_card device).2) ≠
          REQUIRED_HWDEP_VERSION_MAJOR) :
    (add_reset_actions env card s).grid = s.grid ∧
      (add_reset_actions env card s).grid_y = s.grid_y ∧
      (add_reset_actions env card s).signals = s.signals := by
  by_cases herr : (env.scarlett2_open_card device).1 < 0
  · rw [add_reset_actions_open_failed env card s device hdev herr]
    exact ⟨rfl, rfl, rfl⟩
  · have herr0 := not_lt.mp herr
    by_cases hver :
        env.scarlett2_get_protocol_version (env.scarlett2_open_card device).2 < 0
    · rw [add_reset_actions_version_failed env card s device hdev herr0 hver]
      exact ⟨rfl, rfl, rfl⟩
    · have hver0 := not_lt.mp hver
      have hmajor : env.SCARLETT2_HWDEP_VERSION_MAJOR
          (env.scarlett2_get_protocol_version (env.scarlett2_open_card device).2) ≠
            REQUIRED_HWDEP_VERSION_MAJOR := by
        rcases h with h | h | h
        · exact absurd h herr
        · exact absurd h hver
        · exact h
      rw [add_reset_actions_version_mismatch env card s device hdev herr0 hver0 hmajor]
      exact ⟨rfl, rfl, rfl⟩

/-- On the path that passes the gate the grid and `grid_y` are those of
`add_reset_action` for the "Reset Configuration" section. -/
theorem reset_available_grid (env : Scarlett2) (card : alsa_card) (s : State)
    (device : String) (hdev : card.device = some device)
    (herr : 0 ≤ (env.scarlett2_open_card device).1)
    (hver : 0 ≤ env.scarlett2_get_protocol_version (env.scarlett2_open_card device).2)
    (hmajor : env.SCARLETT2_HWDEP_VERSION_MAJOR
      (env.scarlett2_get_protocol_version (env.scarlett2_open_card device).2) =
        REQUIRED_HWDEP_VERSION_MAJOR) :
    (add_reset_actions env card s).grid =
        (add_sep s).grid ++ reset_section (add_sep s).grid_y ∧
      (add_reset_actions env card s).grid_y = (add_sep s).grid_y + 2 := by
  rw [add_reset_actions_supported env card s device hdev herr hver hmajor]
  unfold add_reset_action add_sep
  simp only [hwdep_call, gtk_grid_attach, g_signal_connect, reset_section]
  split <;> simp

/-- C5: for a card with a device path, an open that succeeds and a version read
that returns a non-negative version whose major field is the required one,
`add_reset_actions` appends, after the separator of `add_sep`, the one
"Reset Configuration" section (label, "Reset" button, description), connects
the button's "clicked" signal to `create_reset_config_window` with the card as
data, and writes no diagnostic. -/
theorem reset_available_when_gate_passes (env : Scarlett2) (card : alsa_card) (s : State)
    (device : String) (hdev : card.device = some device)
    (herr : 0 ≤ (env.scarlett2_open_card device).1)
    (hver : 0 ≤ env.scarlett2_get_protocol_version (env.scarlett2_open_card device).2)
    (hmajor : env.SCARLETT2_HWDEP_VERSION_MAJOR
      (env.scarlett2_get_protocol_version (env.scarlett2_open_card device).2) =
        REQUIRED_HWDEP_VERSION_MAJOR) :
    (add_reset_actions env card s).grid =
        (add_sep s).grid ++ reset_section (add_sep s).grid_y ∧
      (add_reset_actions env card s).grid_y = (add_sep s).grid_y + 2 ∧
      (add_reset_actions env card s).signals =
        s.signals ++ [⟨.button "Reset", "clicked", .create_reset_config_window, card⟩] ∧
      (add_reset_actions env card s).stderr = s.stderr ∧
      ((attached_since s (add_reset_actions env card s)).filter
        (fun c => c.widget = small_label "Reset Configuration")).length = 1 ∧
      ((attached_since s (add_reset_actions env card s)).filter
        (fun c => c.widget = .button "Reset")).length = 1 := by
  rw [add_reset_actions_supported env card s device hdev herr hver hmajor]
  have e := add_reset_action_effect card
    (hwdep_call
      (hwdep_call (hwdep_call s (.open_card device))
        (.get_protocol_version (env.scarlett2_open_card device).2))
      (.close (env.scarlett2_open_card device).2))
    "Reset Configuration" "Reset" reset_description .create_reset_config_window
  have hsep : add_sep (hwdep_call
      (hwdep_call (hwdep_call s (.open_card device))
        (.get_protocol_version (env.scarlett2_open_card device).2))
      (.close (env.scarlett2_open_card device).2)) =
      hwdep_call
      (hwdep_call (hwdep_call (add_sep s) (.open_card device))
        (.get_protocol_version (env.scarlett2_open_card device).2))
      (.close (env.scarlett2_open_card device).2) := by
    unfold add_sep
    simp only [hwdep_call, gtk_grid_attach]
    split <;> rfl
  rw [hsep] at e
  obtain ⟨e1, e2, e3, e4, _⟩ := e
  refine ⟨e1, e2, e3, e4, ?_, ?_⟩
  · unfold attached_since
    rw [e1]
    simp only [hwdep_call]
    rw [(add_sep_grid s).1]
    split <;> simp [reset_section, small_label, big_label, List.filter_cons]
  · unfold attached_since
    rw [e1]
    simp only [hwdep_call]
    rw [(add_sep_grid s).1]
    split <;> simp [reset_section, small_label, big_label, List.filter_cons]


/-- Witness of C5 (scenario A): device "hw:0", open returns 0, version (1,0,0),
starting from the empty grid: the grid becomes the reset section at row 0. -/
theorem reset_available_when_gate_passes_witness :
    (add_reset_actions (example_transport 0 7 (example_version 1 0 0)) example_card
        initial_state).grid = reset_section 0 ∧
      (add_reset_actions (example_transport 0 7 (example_version 1 0 0)) example_card
        initial_state).grid_y = 2 ∧
      (add_reset_actions (example_transport 0 7 (example_version 1 0 0)) example_card
        initial_state).signals =
        [⟨.button "Reset", "clicked", .create_reset_config_window, example_card⟩] ∧
      (add_reset_actions (example_transport 0 7 (example_version 1 0 0)) example_card
        initial_state).stderr = [] :=
  have h := reset_available_when_gate_passes
    (example_transport 0 7 (example_version 1 0 0)) example_card initial_state "hw:0" rfl
    (by decide) (by decide) (by decide)
  ⟨h.1, h.2.1, h.2.2.1, h.2.2.2.1⟩

/-- C6: with the open succeeding, the decision of the gate depends on the major
field of the version only: two non-negative versions with the same major field
give the same grid, `grid_y` and signal table, and the reset action is attached
(the grid changes) iff that major field is `REQUIRED_HWDEP_VERSION_MAJOR`. -/
theorem version_gate_major_only (env : Scarlett2) (card : alsa_card) (s : State)
    (device : String) (v1 v2 : Int) (hdev : card.device = some device)
    (herr : 0 ≤ (env.scarlett2_open_card device).1)
    (hv1 : 0 ≤ v1) (hv2 : 0 ≤ v2)
    (hmajor : env.SCARLETT2_HWDEP_VERSION_MAJOR v1 = env.SCARLETT2_HWDEP_VERSION_MAJOR v2) :
    (add_reset_actions (with_version env v1) card s).grid =
        (add_reset_actions (with_version env v2) card s).grid ∧
      (add_reset_actions (with_version env v1) card s).grid_y =
        (add_reset_actions (with_version env v2) card s).grid_y ∧
      (add_reset_actions (with_version env v1) card s).signals =
        (add_reset_actions (with_version env v2) card s).signals ∧
      ((add_reset_actions (with_version env v1) card s).grid ≠ s.grid ↔
        env.SCARLETT2_HWDEP_VERSION_MAJOR v1 = REQUIRED_HWDEP_VERSION_MAJOR) := by
  have key : ∀ v : Int, 0 ≤ v →
      (env.SCARLETT2_HWDEP_VERSION_MAJOR v = REQUIRED_HWDEP_VERSION_MAJOR →
        add_reset_actions (with_version env v) card s =
          add_reset_action card
            (hwdep_call
              (hwdep_call (hwdep_call s (.open_card device))
                (.get_protocol_version (env.scarlett2_open_card device).2))
              (.close (env.scarlett2_open_card device).2))
            "Reset Configuration" "Reset" reset_description .create_reset_config_window) ∧
      (env.SCARLETT2_HWDEP_VERSION_MAJOR v ≠ REQUIRED_HWDEP_VERSION_MAJOR →
        (add_reset_actions (with_version env v) card s).grid = s.grid ∧
          (add_reset_actions (with_version env v) card s).grid_y = s.grid_y ∧
          (add_reset_actions (with_version env v) card s).signals = s.signals) := by
    intro v hv
    constructor
    · intro hm
      exact add_reset_actions_supported (with_version env v) card s device hdev herr hv hm
    · intro hm
      have h := reset_unavailable_frame (with_version env v) card s device hdev
        (Or.inr (Or.inr hm))
      exact h
  by_cases hm : env.SCARLETT2_HWDEP_VERSION_MAJOR v1 = REQUIRED_HWDEP_VERSION_MAJOR
  · have hm2 : env.SCARLETT2_HWDEP_VERSION_MAJOR v2 = REQUIRED_HWDEP_VERSION_MAJOR :=
      hmajor ▸ hm
    rw [(key v1 hv1).1 hm, (key v2 hv2).1 hm2]
    refine ⟨rfl, rfl, rfl, ?_⟩
    have hne := add_reset_action_grid_ne card
      (hwdep_call
        (hwdep_call (hwdep_call s (.open_card device))
          (.get_protocol_version (env.scarlett2_open_card device).2))
        (.close (env.scarlett2_open_card device).2))
      "Reset Configuration" "Reset" reset_description .create_reset_config_window
    exact ⟨fun _ => hm, fun _ => hne⟩
  · have hm2 : env.SCARLETT2_HWDEP_VERSION_MAJOR v2 ≠ REQUIRED_HWDEP_VERSION_MAJOR :=
      hmajor ▸ hm
    obtain ⟨a1, a2, a3⟩ := (key v1 hv1).2 hm
    obtain ⟨b1, b2, b3⟩ := (key v2 hv2).2 hm2
    refine ⟨a1.trans b1.symm, a2.trans b2.symm, a3.trans b3.symm, ?_⟩
    exact ⟨fun h => absurd a1 h, fun h => absurd h hm⟩

/-- Witness of C6: with the example decoders, (1,5,2) and (1,0,0) have the same
major field and give the same grid; (1,5,2) passes the gate (the grid changes)
and (2,0,0) does not (the grid stays as it was). -/
theorem version_gate_major_only_witness :
    (add_reset_actions
        (with_version (example_transport 0 7 0) (example_version 1 5 2)) example_card
        initial_state).grid =
      (add_reset_actions
        (with_version (example_transport 0 7 0) (example_version 1 0 0)) example_card
        initial_state).grid ∧
    (add_reset_actions
        (with_version (example_transport 0 7 0) (example_version 1 5 2)) example_card
        initial_state).grid ≠ initial_state.grid ∧
    ¬ (add_reset_actions
        (with_version (example_transport 0 7 0) (example_version 2 0 0)) example_card
        initial_state).grid ≠ initial_state.grid :=
  have h := version_gate_major_only (example_transport 0 7 0) example_card initial_state
    "hw:0" (example_version 1 5 2) (example_version 1 0 0) rfl (by decide) (by decide)
    (by decide) (by decide)
  have h2 := version_gate_major_only (example_transport 0 7 0) example_card initial_state
    "hw:0" (example_version 2 0 0) (example_version 2 0 0) rfl (by decide) (by decide)
    (by decide) rfl
  ⟨h.1, h.2.2.2.mpr (by decide), fun hne => absurd (h2.2.2.2.mp hne) (by decide)⟩


theorem add_reset_actions_grid (env : Scarlett2) (card : alsa_card) (s : State) :
    (add_reset_actions env card s).grid =
        (if reset_gate_passes env card then (add_sep s).grid ++ reset_section (add_sep s).grid_y
          else s.grid) ∧
      (add_reset_actions env card s).grid_y =
        (if reset_gate_passes env card then (add_sep s).grid_y + 2 else s.grid_y) := by
  cases hdev : card.device with
  | none =>
    rw [add_reset_actions_simulated env card s hdev]
    simp [reset_gate_passes, hdev]
  | some device =>
    by_cases hg : 0 ≤ (env.scarlett2_open_card device).1 ∧
      0 ≤ env.scarlett2_get_protocol_version (env.scarlett2_open_card device).2 ∧
      env.SCARLETT2_HWDEP_VERSION_MAJOR
        (env.scarlett2_get_protocol_version (env.scarlett2_open_card device).2) =
          REQUIRED_HWDEP_VERSION_MAJOR
    · have h := reset_available_grid env card s device hdev hg.1 hg.2.1 hg.2.2
      simp [reset_gate_passes, hdev, hg, h]
    · have hg2 : (env.scarlett2_open_card device).1 < 0 ∨
          env.scarlett2_get_protocol_version (env.scarlett2_open_card device).2 < 0 ∨
          env.SCARLETT2_HWDEP_VERSION_MAJOR
            (env.scarlett2_get_protocol_version (env.scarlett2_open_card device).2) ≠
              REQUIRED_HWDEP_VERSION_MAJOR := by
        by_contra hc
        push_neg at hc
        exact hg ⟨hc.1, hc.2.1, hc.2.2⟩
      have h := reset_unavailable_frame env card s device hdev hg2
      have hb : reset_gate_passes env card = false := by
        simp only [reset_gate_passes, hdev]
        rcases hg2 with h | h | h
        · simp [h]
        · simp [h]
        · simp [h]
      simp [hb, h]


theorem add_reset_actions_calls (env : Scarlett2) (card : alsa_card) (s : State) :
    ∃ t : List HwdepCall, (add_reset_actions env card s).calls = s.calls ++ t ∧
      (t.filter HwdepCall.is_open).length ≤ 1 := by
  cases hdev : card.device with
  | none =>
    exact ⟨[], by simp [add_reset_actions_simulated env card s hdev], by simp⟩
  | some device =>
    by_cases herr : (env.scarlett2_open_card device).1 < 0
    · rw [add_reset_actions_open_failed env card s device hdev herr]
      exact ⟨[.open_card device], by simp [fprintf_stderr, hwdep_call],
        by simp [HwdepCall.is_open]⟩
    · have herr0 := not_lt.mp herr
      by_cases hver :
          env.scarlett2_get_protocol_version (env.scarlett2_open_card device).2 < 0
      · rw [add_reset_actions_version_failed env card s device hdev herr0 hver]
        exact ⟨[.open_card device, .get_protocol_version (env.scarlett2_open_card device).2],
          by simp [fprintf_stderr, hwdep_call], by simp [HwdepCall.is_open]⟩
      · have hver0 := not_lt.mp hver
        by_cases hmajor : env.SCARLETT2_HWDEP_VERSION_MAJOR
            (env.scarlett2_get_protocol_version (env.scarlett2_open_card device).2) =
              REQUIRED_HWDEP_VERSION_MAJOR
        · rw [add_reset_actions_supported env card s device hdev herr0 hver0 hmajor,
            (add_reset_action_effect _ _ _ _ _ _).2.2.2.2]
          exact ⟨[.open_card device, .get_protocol_version (env.scarlett2_open_card device).2,
            .close (env.scarlett2_open_card device).2],
            by simp [hwdep_call], by simp [HwdepCall.is_open]⟩
        · rw [add_reset_actions_version_mismatch env card s device hdev herr0 hver0 hmajor]
          exact ⟨[.open_card device, .get_protocol_version (env.scarlett2_open_card device).2],
            by simp [fprintf_stderr, hwdep_call], by simp [HwdepCall.is_open]⟩

/-! ## The panel as a whole (C7 to C10) -/

/-- C7: in the panel built by `create_startup_controls`, the section of each
control feature (Standalone, Phantom Power Persistence, MSD Mode) is attached
iff `get_elem_by_name` finds the element of that feature, whatever the other
lookups and the reset gate give; when the element is absent the feature's
function returns the state unchanged; when it is found the function appends
the section with the toggle of the found element. -/
theorem control_section_iff_element_found (env : Scarlett2) (card : alsa_card) :
    ((∃ c ∈ (create_startup_controls env card).grid, c.widget = small_label "Standalone") ↔
        (get_elem_by_name card.elems "Standalone Switch").isSome) ∧
      ((∃ c ∈ (create_startup_controls env card).grid,
          c.widget = small_label "Phantom Power Persistence") ↔
        (get_elem_by_name card.elems "Phantom Power Persistence Capture Switch").isSome) ∧
      ((∃ c ∈ (create_startup_controls env card).grid,
          c.widget = small_label "MSD (Mass Storage Device) Mode") ↔
        (get_elem_by_name card.elems "MSD Mode Switch").isSome) ∧
      (∀ s : State, get_elem_by_name card.elems "Standalone Switch" = none →
        add_standalone_control card.elems s = s) ∧
      (∀ s : State,
        get_elem_by_name card.elems "Phantom Power Persistence Capture Switch" = none →
        add_phantom_persistence_control card.elems s = s) ∧
      (∀ s : State, get_elem_by_name card.elems "MSD Mode Switch" = none →
        add_msd_control card.elems s = s) ∧
      (∀ (s : State) (e : alsa_elem),
        get_elem_by_name card.elems "Standalone Switch" = some e →
        (add_standalone_control card.elems s).grid = (add_sep s).grid ++
          [ ⟨small_label "Standalone", 0, (add_sep s).grid_y, 1, 1⟩,
            ⟨make_boolean_alsa_elem e "Disabled" "Enabled", 0, (add_sep s).grid_y + 1, 1, 1⟩,
            ⟨big_label standalone_description, 1, (add_sep s).grid_y, 1, 2⟩ ]) ∧
      (∀ (s : State) (e : alsa_elem),
        get_elem_by_name card.elems "Phantom Power Persistence Capture Switch" = some e →
        (add_phantom_persistence_control card.elems s).grid = (add_sep s).grid ++
          [ ⟨small_label "Phantom Power Persistence", 0, (add_sep s).grid_y, 1, 1⟩,
            ⟨make_boolean_alsa_elem e "Disabled" "Enabled", 0, (add_sep s).grid_y + 1, 1, 1⟩,
            ⟨big_label phantom_description, 1, (add_sep s).grid_y, 1, 2⟩ ]) ∧
      (∀ (s : State) (e : alsa_elem),
        get_elem_by_name card.elems "MSD Mode Switch" = some e →
        (add_msd_control card.elems s).grid = (add_sep s).grid ++
          [ ⟨small_label "MSD (Mass Storage Device) Mode", 0, (add_sep s).grid_y, 1, 1⟩,
            ⟨make_boolean_alsa_elem e "Disabled" "Enabled", 0, (add_sep s).grid_y + 1, 1, 1⟩,
            ⟨big_label msd_description, 1, (add_sep s).grid_y, 1, 2⟩ ]) := by
  refine ⟨?_, ?_, ?_, ?_, ?_, ?_, ?_, ?_, ?_⟩
  iterate 3
    cases h1 : get_elem_by_name card.elems "Standalone Switch" <;>
    cases h2 : get_elem_by_name card.elems "Phantom Power Persistence Capture Switch" <;>
    cases h3 : get_elem_by_name card.elems "MSD Mode Switch" <;>
    cases h4 : reset_gate_passes env card <;>
    simp [create_startup_controls, add_all_controls, add_reset_actions_grid,
      add_standalone_control, add_phantom_persistence_control, add_msd_control, h1, h2, h3, h4,
      add_sep, gtk_grid_attach, initial_state, reset_section, add_no_startup_controls_msg,
      small_label, big_label, make_boolean_alsa_elem]
  · intro s h
    simp [add_standalone_control, h]
  · intro s h
    simp [add_phantom_persistence_control, h]
  · intro s h
    simp [add_msd_control, h]
  · intro s e h
    simp [add_standalone_control, h, gtk_grid_attach]
  · intro s e h
    simp [add_phantom_persistence_control, h, gtk_grid_attach]
  · intro s e h
    simp [add_msd_control, h, gtk_grid_attach]

/-- C8: the three control-feature functions leave the sequence of hwdep calls
as it was, for every control set and state; in a run of
`create_startup_controls` no call has been made when `add_reset_actions`
starts, every call of the run is made by `add_reset_actions`, and at most one
of them is a `scarlett2_open_card`. -/
theorem control_features_make_no_hwdep_call (env : Scarlett2) (card : alsa_card) :
    (∀ (elems : List alsa_elem) (s : State),
        (add_standalone_control elems s).calls = s.calls) ∧
      (∀ (elems : List alsa_elem) (s : State),
        (add_phantom_persistence_control elems s).calls = s.calls) ∧
      (∀ (elems : List alsa_elem) (s : State), (add_msd_control elems s).calls = s.calls) ∧
      (add_msd_control card.elems
        (add_phantom_persistence_control card.elems
          (add_standalone_control card.elems initial_state))).calls = [] ∧
      (create_startup_controls env card).calls =
        calls_since
          (add_msd_control card.elems
            (add_phantom_persistence_control card.elems
              (add_standalone_control card.elems initial_state)))
          (add_reset_actions env card
            (add_msd_control card.elems
              (add_phantom_persistence_control card.elems
                (add_standalone_control card.elems initial_state)))) ∧
      ((create_startup_controls env card).calls.filter HwdepCall.is_open).length ≤ 1 := by
  have h0 := (add_all_controls_frame card).1
  have hc : (create_startup_controls env card).calls =
      (add_reset_actions env card
        (add_msd_control card.elems
          (add_phantom_persistence_control card.elems
            (add_standalone_control card.elems initial_state)))).calls :=
    (create_startup_controls_frame env card).1
  refine ⟨fun elems s => (add_standalone_control_frame elems s).2.2,
    fun elems s => (add_phantom_persistence_control_frame elems s).2.2,
    fun elems s => (add_msd_control_frame elems s).2.2, h0, ?_, ?_⟩
  · rw [hc]
    simp [calls_since, h0]
  · rw [hc]
    obtain ⟨t, ht, hlen⟩ := add_reset_actions_calls env card
      (add_msd_control card.elems
        (add_phantom_persistence_control card.elems
          (add_standalone_control card.elems initial_state)))
    rw [ht, h0]
    simpa using hlen

/-- C9: the panel built by `create_startup_controls` contains the "no startup
controls" message iff no control element was found and the reset gate did not
pass, that is iff no section label is attached; when the message is there it
is the only child of the grid, at cell (0,0); the reset gate passes iff the
"Reset Configuration" label is attached. -/
theorem no_startup_controls_msg_iff_nothing_offered (env : Scarlett2) (card : alsa_card) :
    ((∃ c ∈ (create_startup_controls env card).grid,
        c.widget = big_label no_startup_controls_text) ↔
      (get_elem_by_name card.elems "Standalone Switch" = none ∧
        get_elem_by_name card.elems "Phantom Power Persistence Capture Switch" = none ∧
        get_elem_by_name card.elems "MSD Mode Switch" = none ∧
        reset_gate_passes env card = false)) ∧
      ((∃ c ∈ (create_startup_controls env card).grid,
        c.widget = big_label no_startup_controls_text) ↔
        ∀ c ∈ (create_startup_controls env card).grid, c.widget.kind ≠ .label) ∧
      ((∃ c ∈ (create_startup_controls env card).grid,
        c.widget = big_label no_startup_controls_text) →
        (create_startup_controls env card).grid =
          [⟨big_label no_startup_controls_text, 0, 0, 1, 1⟩]) ∧
      (reset_gate_passes env card = true ↔
        ∃ c ∈ (create_startup_controls env card).grid,
          c.widget = small_label "Reset Configuration") := by
  cases h1 : get_elem_by_name card.elems "Standalone Switch" <;>
  cases h2 : get_elem_by_name card.elems "Phantom Power Persistence Capture Switch" <;>
  cases h3 : get_elem_by_name card.elems "MSD Mode Switch" <;>
  cases h4 : reset_gate_passes env card <;>
  simp [create_startup_controls, add_all_controls, add_reset_actions_grid,
    add_standalone_control, add_phantom_persistence_control, add_msd_control, h1, h2, h3, h4,
    add_sep, gtk_grid_attach, initial_state, reset_section, add_no_startup_controls_msg,
    small_label, big_label, make_boolean_alsa_elem, GtkWidget.kind] <;> decide

/-- C10: row bookkeeping of the panel. With `k` features offered, `grid_y` ends
at 0 when `k = 0` and at `3k - 1` otherwise; there are `k - 1` separators and
`k` section labels; every separator spans the three columns of a row other
than row 0 that no other child covers, directly below one section and directly
above another; every section has its label and its control in column 0 on two
consecutive rows and its description beside them over both rows; no two
children share a cell; and `add_sep` does nothing when `grid_y` is 0 and
otherwise attaches one separator at row `grid_y` and adds 1 to `grid_y`. -/
theorem panel_row_bookkeeping (env : Scarlett2) (card : alsa_card) :
    (∀ s : State, s.grid_y = 0 → add_sep s = s) ∧
      (∀ s : State, s.grid_y ≠ 0 →
        (add_sep s).grid = s.grid ++ [⟨.separator, 0, s.grid_y, 3, 1⟩] ∧
        (add_sep s).grid_y = s.grid_y + 1) ∧
      (create_startup_controls env card).grid_y =
        (if offered_count env card = 0 then 0 else 3 * (offered_count env card : Int) - 1) ∧
      ((layout (create_startup_controls env card)).filter
        (fun p => p.kind = .separator)).length = offered_count env card - 1 ∧
      ((layout (create_startup_controls env card)).filter
        (fun p => p.kind = .label)).length = offered_count env card ∧
      (∀ p ∈ layout (create_startup_controls env card), p.kind = .separator →
        p.column = 0 ∧ p.width = 3 ∧ p.height = 1 ∧ 0 < p.row ∧
        (∀ q ∈ layout (create_startup_controls env card), q ≠ p → q.on_row p.row = false) ∧
        ⟨.label, 0, p.row - 2, 1, 1⟩ ∈ layout (create_startup_controls env card) ∧
        ⟨.label, 0, p.row + 1, 1, 1⟩ ∈ layout (create_startup_controls env card)) ∧
      (∀ p ∈ layout (create_startup_controls env card), p.kind = .label →
        p.column = 0 ∧ p.width = 1 ∧ p.height = 1 ∧
        ⟨.control, 0, p.row + 1, 1, 1⟩ ∈ layout (create_startup_controls env card) ∧
        ⟨.text_view, 1, p.row, 1, 2⟩ ∈ layout (create_startup_controls env card)) ∧
      (layout (create_startup_controls env card)).Pairwise
        (fun a b => a.overlaps b = false) := by
  refine ⟨fun s hs => by simp [add_sep, hs],
    fun s hs => by simp [add_sep, hs, gtk_grid_attach], ?_⟩
  cases h1 : get_elem_by_name card.elems "Standalone Switch" <;>
  cases h2 : get_elem_by_name card.elems "Phantom Power Persistence Capture Switch" <;>
  cases h3 : get_elem_by_name card.elems "MSD Mode Switch" <;>
  cases h4 : reset_gate_passes env card <;>
  simp only [layout, offered_count, create_startup_controls, add_all_controls,
    add_reset_actions_grid,
    add_standalone_control, add_phantom_persistence_control, add_msd_control, h1, h2, h3, h4,
    add_sep, gtk_grid_attach, initial_state, reset_section, add_no_startup_controls_msg,
    small_label, big_label, make_boolean_alsa_elem, GridChild.placement, GtkWidget.kind,
    List.map_cons, List.map_nil, List.map_append, List.nil_append, List.cons_append,
    List.append_nil, if_true, if_false, Option.isSome, Bool.toNat, cond,
    Int.reduceAdd, Int.reduceEq, Nat.reduceAdd, reduceIte, Bool.false_eq_true] <;>
  decide

end WindowStartup
